import Mathlib

/-
  Verification of the zcoin znode synchronization coordinator
  (src/src/znode-sync.cpp) against its natural-language specification.

  The coordinator (class CZnodeSync) is embedded shallowly: its mutable
  fields become the structure SyncState, the static locals of
  IsBlockchainSynced become GateStatics, external collaborators
  (chain index, peer snapshot, per-peer height statistics, payment-vote
  ledger, fulfilled-request tracker, try-locks) become explicit
  environment records, and each member function becomes a pure Lean
  function from state and environment to state plus observable effects
  (messages pushed to peers, disconnect flags, finalization actions).
-/

namespace ZnodeSync

/-- Modelled from the spec: the phase constants for `nRequestedZnodeAssets` are
declared in znode-sync.h, which is not part of src/. The spec (section 3) fixes
the phases and their forward order Initial, Sporks, Roster (LIST),
PaymentVotes (MNW), Finished, with Failed distinct; the integer codes here
follow that order, with Failed below Initial and Finished above all others,
matching the source's ordered comparison `nRequestedZnodeAssets > ZNODE_SYNC_SPORKS`. -/
def ZNODE_SYNC_FAILED : Int := -1

def ZNODE_SYNC_INITIAL : Int := 0

def ZNODE_SYNC_SPORKS : Int := 1

def ZNODE_SYNC_LIST : Int := 2

def ZNODE_SYNC_MNW : Int := 3

def ZNODE_SYNC_GOVERNANCE : Int := 4

def ZNODE_SYNC_FINISHED : Int := 999

/-- Modelled from the spec: the tick interval constant of znode-sync.h (absent
from src/); section 4.4 gives roughly six seconds. -/
def ZNODE_SYNC_TICK_SECONDS : Int := 6

/-- Modelled from the spec: the phase timeout constant of znode-sync.h (absent
from src/); section 4.4 gives five times the tick interval. -/
def ZNODE_SYNC_TIMEOUT_SECONDS : Int := 30

/-- Modelled from the spec: the minimum-peer threshold of section 4.2 step 7,
declared in the missing znode-sync.h. -/
def ZNODE_SYNC_ENOUGH_PEERS : Nat := 6

/-- The mutable fields of CZnodeSync (the SyncState of the spec's data model). -/
structure SyncState where
  nRequestedZnodeAssets : Int
  nRequestedZnodeAttempt : Int
  nTimeAssetSyncStarted : Int
  nTimeLastZnodeList : Int
  nTimeLastPaymentVote : Int
  nTimeLastGovernanceItem : Int
  nTimeLastFailure : Int
  nCountFailures : Int
  deriving DecidableEq

/-- CZnodeSync::Fail (znode-sync.cpp lines 129-132): stamp the failure time and
set the phase to Failed. -/
def Fail (now : Int) (s : SyncState) : SyncState :=
  { s with nTimeLastFailure := now, nRequestedZnodeAssets := ZNODE_SYNC_FAILED }

/-- CZnodeSync::Reset (znode-sync.cpp lines 134-143): full reset of every field,
with all phase timestamps set to the current time. -/
def Reset (now : Int) (s : SyncState) : SyncState :=
  { s with
    nRequestedZnodeAssets := ZNODE_SYNC_INITIAL
    nRequestedZnodeAttempt := 0
    nTimeAssetSyncStarted := now
    nTimeLastZnodeList := now
    nTimeLastPaymentVote := now
    nTimeLastGovernanceItem := now
    nTimeLastFailure := 0
    nCountFailures := 0 }

/-- A connected peer (the fields of CNode the coordinator reads or writes). -/
structure Peer where
  id : Nat
  addr : Nat
  fZnode : Bool
  fInbound : Bool
  nVersion : Int
  fDisconnect : Bool
  deriving DecidableEq

/-- The request-type labels used with the fulfilled-request tracker. -/
inductive Label
  | sporkSync
  | znodeListSync
  | znodePaymentSync
  | fullSync
  deriving DecidableEq

/-- The state of the external netfulfilledman tracker, restricted to the
(address, label) pairs the coordinator reads and writes. -/
abbrev FulfilledSet := List (Nat × Label)

def HasFulfilled (ful : FulfilledSet) (a : Nat) (l : Label) : Bool :=
  ful.any fun e => decide (e.1 = a) && decide (e.2 = l)

def AddFulfilledRequest (ful : FulfilledSet) (a : Nat) (l : Label) : FulfilledSet :=
  (a, l) :: ful

def RemoveFulfilledRequest (ful : FulfilledSet) (a : Nat) (l : Label) : FulfilledSet :=
  ful.filter fun e => !(decide (e.1 = a) && decide (e.2 = l))

/-- CZnodeSync::ClearFulfilledRequests (znode-sync.cpp lines 257-268): under a
try-lock, remove all four request labels for every connected peer; if the lock
is contended, do nothing. -/
def ClearFulfilledRequests (lockRecv : Bool) (vNodes : List Peer)
    (ful : FulfilledSet) : FulfilledSet :=
  if lockRecv = true then
    vNodes.foldl (fun acc p =>
      RemoveFulfilledRequest (RemoveFulfilledRequest (RemoveFulfilledRequest
        (RemoveFulfilledRequest acc p.addr Label.sporkSync)
        p.addr Label.znodeListSync)
        p.addr Label.znodePaymentSync)
        p.addr Label.fullSync) ful
  else ful

/-- Observable external calls of the coordinator other than peer messages and
fulfilled-tracker updates. `manageState` is activeZnode.ManageState(). -/
inductive Action
  | manageState
  deriving DecidableEq

/-- CZnodeSync::SwitchToNextAsset (znode-sync.cpp lines 166-220).
From Failed it throws (modelled as `Except.error`). From MNW it stamps the
governance timestamp, sets the phase to Finished, runs ManageState, and then
- only if the try-lock on the node list succeeds - marks full-sync fulfilled
for every connected peer; when the lock is contended the C++ `return` inside
the switch statement skips the trailing `nRequestedZnodeAttempt = 0;
nTimeAssetSyncStarted = GetTime();`, so the attempt counter and the phase
start stamp are left unchanged in that case. -/
def SwitchToNextAsset (now : Int) (lockRecv : Bool) (vNodes : List Peer)
    (s : SyncState) (ful : FulfilledSet) :
    Except Unit (SyncState × FulfilledSet × List Action) :=
  if s.nRequestedZnodeAssets = ZNODE_SYNC_FAILED then
    Except.error ()
  else if s.nRequestedZnodeAssets = ZNODE_SYNC_INITIAL then
    Except.ok ({ s with
                  nRequestedZnodeAssets := ZNODE_SYNC_SPORKS
                  nRequestedZnodeAttempt := 0
                  nTimeAssetSyncStarted := now },
               ClearFulfilledRequests lockRecv vNodes ful, [])
  else if s.nRequestedZnodeAssets = ZNODE_SYNC_SPORKS then
    Except.ok ({ s with
                  nTimeLastZnodeList := now
                  nRequestedZnodeAssets := ZNODE_SYNC_LIST
                  nRequestedZnodeAttempt := 0
                  nTimeAssetSyncStarted := now }, ful, [])
  else if s.nRequestedZnodeAssets = ZNODE_SYNC_LIST then
    Except.ok ({ s with
                  nTimeLastPaymentVote := now
                  nRequestedZnodeAssets := ZNODE_SYNC_MNW
                  nRequestedZnodeAttempt := 0
                  nTimeAssetSyncStarted := now }, ful, [])
  else if s.nRequestedZnodeAssets = ZNODE_SYNC_MNW then
    if lockRecv = true then
      Except.ok ({ s with
                    nTimeLastGovernanceItem := now
                    nRequestedZnodeAssets := ZNODE_SYNC_FINISHED
                    nRequestedZnodeAttempt := 0
                    nTimeAssetSyncStarted := now },
                 vNodes.foldl (fun acc p => AddFulfilledRequest acc p.addr Label.fullSync) ful,
                 [Action.manageState])
    else
      Except.ok ({ s with
                    nTimeLastGovernanceItem := now
                    nRequestedZnodeAssets := ZNODE_SYNC_FINISHED },
                 ful, [Action.manageState])
  else
    Except.ok ({ s with nRequestedZnodeAttempt := 0, nTimeAssetSyncStarted := now },
               ful, [])

/-- CZnodeSync::CheckNodeHeight (znode-sync.cpp lines 20-45). `stats` is the
result of GetNodeStateStats for the peer: `none` when unavailable, otherwise
(nCommonHeight, nSyncHeight). Returns the verdict and the (possibly
disconnect-flagged) peer. -/
def CheckNodeHeight (localHeight : Int) (stats : Option (Int × Int))
    (fDisconnectStuckNodes : Bool) (pnode : Peer) : Bool × Peer :=
  match stats with
  | none => (false, pnode)
  | some st =>
    if st.1 = -1 ∨ st.2 = -1 then (false, pnode)
    else if localHeight - 1 > st.1 then
      if fDisconnectStuckNodes = true then (false, { pnode with fDisconnect := true })
      else (false, pnode)
    else if localHeight < st.2 - 1 then (false, pnode)
    else (true, pnode)

/-- The static locals of CZnodeSync::IsBlockchainSynced (lines 48-51). -/
structure GateStatics where
  fBlockchainSynced : Bool
  nTimeLastProcess : Int
  nSkipped : Int
  fFirstBlockAccepted : Bool
  deriving DecidableEq

/-- The external inputs of IsBlockchainSynced: the chain index (height and
block time of the best validated block and the best header), import/reindex
flags, checkpoint data, tip-age bound, the peer snapshot, and the per-peer
height statistics keyed by peer id. -/
structure GateEnv where
  pCurrentBlockIndex : Option (Int × Int)
  pindexBestHeader : Option (Int × Int)
  fImporting : Bool
  fReindex : Bool
  fCheckpointsEnabled : Bool
  checkpointsEstimate : Int
  maxTipAge : Int
  vNodes : List Peer
  nodeStats : List (Nat × Int × Int)
  deriving DecidableEq

/-- GetNodeStateStats, as a lookup in the environment's statistics table. -/
def GetNodeStateStats (l : List (Nat × Int × Int)) (i : Nat) : Option (Int × Int) :=
  match l.find? (fun e => decide (e.1 = i)) with
  | some e => some e.2
  | none => none

/-- The peer-counting loop of IsBlockchainSynced (lines 99-115): scan the
snapshot counting height-healthy peers (CheckNodeHeight with the disconnect
flag defaulted to false); report true as soon as the count reaches
ZNODE_SYNC_ENOUGH_PEERS. -/
def CountNodesAtSameHeight (localHeight : Int) (stats : List (Nat × Int × Int)) :
    Nat → List Peer → Bool
  | _, [] => false
  | n, p :: rest =>
    if (CheckNodeHeight localHeight (GetNodeStateStats stats p.id) false p).1 = true then
      if n + 1 ≥ ZNODE_SYNC_ENOUGH_PEERS then true
      else CountNodesAtSameHeight localHeight stats (n + 1) rest
    else CountNodesAtSameHeight localHeight stats n rest

/-- The statics after lines 82-83: evaluation time stamped, skip counter
cleared. -/
def stampStatics (now : Int) (st : GateStatics) : GateStatics :=
  { st with nTimeLastProcess := now, nSkipped := 0 }

/-- The staleness heuristic of lines 122-125: header height within the
24*6-block margin of the validated height, and the most recent of the two
block times within the network's maximum tip age of the current time. -/
def syncedHeuristic (env : GateEnv) (now : Int) (cur hdr : Int × Int) : Bool :=
  decide (hdr.1 - cur.1 < 24 * 6) && decide (now - max cur.2 hdr.2 < env.maxTipAge)

/-- The tail of CZnodeSync::IsBlockchainSynced from line 82 on: stamp the
evaluation time, clear the skip counter, short-circuit on the memoized flag,
then checkpoints, then peer-height consensus, then the first-accepted-block
guard, and finally the staleness heuristic. `cur` and `hdr` are the
dereferenced (height, block time) of pCurrentBlockIndex and pindexBestHeader. -/
def IsBlockchainSyncedMain (env : GateEnv) (now : Int) (cur hdr : Int × Int)
    (st : GateStatics) (s : SyncState) : Bool × GateStatics × SyncState :=
  if (stampStatics now st).fBlockchainSynced = true then (true, stampStatics now st, s)
  else if env.fCheckpointsEnabled = true ∧ cur.1 < env.checkpointsEstimate then
    (false, stampStatics now st, s)
  else if env.vNodes.length ≥ ZNODE_SYNC_ENOUGH_PEERS ∧
      CountNodesAtSameHeight cur.1 env.nodeStats 0 env.vNodes = true then
    (true, { stampStatics now st with fBlockchainSynced := true }, s)
  else if (stampStatics now st).fFirstBlockAccepted = false then
    (false, stampStatics now st, s)
  else
    (syncedHeuristic env now cur hdr,
     { stampStatics now st with fBlockchainSynced := syncedHeuristic env now cur hdr },
     s)

/-- The statics after the block-accepted restart branch (lines 66-70): first
block accepted, memoized flag cleared, evaluation time stamped. -/
def restartStatics (now : Int) (st : GateStatics) : GateStatics :=
  { st with
    fFirstBlockAccepted := true
    fBlockchainSynced := false
    nTimeLastProcess := now }

/-- CZnodeSync::IsBlockchainSynced after the idle check (znode-sync.cpp lines
60-126): the availability guard (line 60, returning not-synced with no state
mutation), the block-accepted restart branch guarded only by !IsSynced()
(lines 62-71), the throttle (lines 72-78), and the evaluation proper.
The chain-index dereferences use getD; the guard makes the default dead. -/
def IsBlockchainSyncedBody (env : GateEnv) (now : Int) (fBlockAccepted : Bool)
    (st : GateStatics) (s : SyncState) : Bool × GateStatics × SyncState :=
  if env.pCurrentBlockIndex = none ∨ env.pindexBestHeader = none ∨
      env.fImporting = true ∨ env.fReindex = true then (false, st, s)
  else if fBlockAccepted = true then
    if s.nRequestedZnodeAssets ≠ ZNODE_SYNC_FINISHED then
      (false, restartStatics now st, s)
    else IsBlockchainSyncedMain env now (env.pCurrentBlockIndex.getD (0, 0))
          (env.pindexBestHeader.getD (0, 0)) st s
  else if now - st.nTimeLastProcess < ZNODE_SYNC_TICK_SECONDS then
    (st.fBlockchainSynced, { st with nSkipped := st.nSkipped + 1 }, s)
  else IsBlockchainSyncedMain env now (env.pCurrentBlockIndex.getD (0, 0))
        (env.pindexBestHeader.getD (0, 0)) st s

/-- CZnodeSync::IsBlockchainSynced (znode-sync.cpp lines 47-127). Returns the
verdict together with the updated statics and the (possibly Reset) CZnodeSync
state. The idle check runs first and, past one hour, resets both the state
machine and the memoized flag before the evaluation proper. -/
def IsBlockchainSynced (env : GateEnv) (now : Int) (fBlockAccepted : Bool)
    (st : GateStatics) (s : SyncState) : Bool × GateStatics × SyncState :=
  if now - st.nTimeLastProcess > 60 * 60 then
    IsBlockchainSyncedBody env now fBlockAccepted
      { st with fBlockchainSynced := false } (Reset now s)
  else IsBlockchainSyncedBody env now fBlockAccepted st s

/-- The messages the tick pushes to a peer: GETSPORKS, mnodeman.DsegUpdate
(the roster refresh), ZNODEPAYMENTSYNC with its integer payload, and
mnpayments.RequestLowDataPaymentBlocks. -/
inductive Msg
  | getSporks
  | dsegUpdate
  | znodePaymentSync (payload : Int)
  | requestLowDataPaymentBlocks
  deriving DecidableEq

/-- The external inputs of CZnodeSync::ProcessTick: network mode, local znode
flag, the roster count, chain-index availability, the (abstracted) verdict of
the nested IsBlockchainSynced calls, the payment-vote ledger interface, the
try-lock outcome, and the peer snapshot. -/
structure TickEnv where
  regtest : Bool
  fZNode : Bool
  nMnCount : Int
  haveBlockIndex : Bool
  blockchainSynced : Bool
  isEnoughData : Bool
  minPaymentsProto : Int
  storageLimit : Int
  lockRecv : Bool
  vNodes : List Peer
  deriving DecidableEq

/-- The outcome of one ProcessTick invocation: the updated CZnodeSync state,
the updated fulfilled-request tracker, the pushed messages in order (peer id,
message), the ids of peers whose disconnect flag was set, the finalization
actions run, and whether SwitchToNextAsset threw. -/
structure TickResult where
  state : SyncState
  fulfilled : FulfilledSet
  msgs : List (Nat × Msg)
  disconnected : List Nat
  actions : List Action
  errored : Bool
  deriving DecidableEq

def noopResult (s : SyncState) (ful : FulfilledSet) : TickResult :=
  { state := s, fulfilled := ful, msgs := [], disconnected := [], actions := [],
    errored := false }

def errorResult (s : SyncState) (ful : FulfilledSet) : TickResult :=
  { state := s, fulfilled := ful, msgs := [], disconnected := [], actions := [],
    errored := true }

/-- Record a disconnect request for a peer processed before the scan went on. -/
def withDisconnect (pid : Nat) (r : TickResult) : TickResult :=
  { r with disconnected := pid :: r.disconnected }

/-- Record a message pushed to a peer before the scan went on. -/
def withMsg (m : Nat × Msg) (r : TickResult) : TickResult :=
  { r with msgs := m :: r.msgs }

/-- Prepend the actions of the bootstrap switch to those of the per-peer pass. -/
def withActs (a : List Action) (r : TickResult) : TickResult :=
  { r with actions := a ++ r.actions }

/-- The per-peer loop of ProcessTick (znode-sync.cpp lines 324-511): skip
znode-role connections; in regtest drive the attempt-indexed quick sequence
and return after the first processed peer; in normal mode disconnect already
fully-synced peers, send sporks first, and handle the LIST and MNW phases
with their timeout / failure / advance / request logic, returning right after
the first substantive per-peer action. -/
def processPeers (env : TickEnv) (now : Int) :
    SyncState → FulfilledSet → List Peer → TickResult
  | s, ful, [] => noopResult s ful
  | s, ful, p :: rest =>
    if p.fZnode = true ∨ (env.fZNode = true ∧ p.fInbound = true) then
      processPeers env now s ful rest
    else if env.regtest = true then
      if s.nRequestedZnodeAttempt ≤ 2 then
        { state := { s with nRequestedZnodeAttempt := s.nRequestedZnodeAttempt + 1 }
          fulfilled := ful, msgs := [(p.id, Msg.getSporks)], disconnected := []
          actions := [], errored := false }
      else if s.nRequestedZnodeAttempt < 4 then
        { state := { s with nRequestedZnodeAttempt := s.nRequestedZnodeAttempt + 1 }
          fulfilled := ful, msgs := [(p.id, Msg.dsegUpdate)], disconnected := []
          actions := [], errored := false }
      else if s.nRequestedZnodeAttempt < 6 then
        { state := { s with nRequestedZnodeAttempt := s.nRequestedZnodeAttempt + 1 }
          fulfilled := ful, msgs := [(p.id, Msg.znodePaymentSync env.nMnCount)]
          disconnected := [], actions := [], errored := false }
      else
        { state := { s with
                      nRequestedZnodeAssets := ZNODE_SYNC_FINISHED
                      nRequestedZnodeAttempt := s.nRequestedZnodeAttempt + 1 }
          fulfilled := ful, msgs := [], disconnected := [], actions := []
          errored := false }
    else
      if HasFulfilled ful p.addr Label.fullSync = true then
        withDisconnect p.id (processPeers env now s ful rest)
      else if HasFulfilled ful p.addr Label.sporkSync = false then
        withMsg (p.id, Msg.getSporks)
          (processPeers env now s (AddFulfilledRequest ful p.addr Label.sporkSync) rest)
      else if s.nRequestedZnodeAssets = ZNODE_SYNC_LIST then
        if s.nTimeLastZnodeList < now - ZNODE_SYNC_TIMEOUT_SECONDS then
          if s.nRequestedZnodeAttempt = 0 then
            { state := Fail now s, fulfilled := ful, msgs := [], disconnected := []
              actions := [], errored := false }
          else
            match SwitchToNextAsset now env.lockRecv env.vNodes s ful with
            | Except.error _ => errorResult s ful
            | Except.ok (s1, ful1, acts1) =>
              { state := s1, fulfilled := ful1, msgs := [], disconnected := []
                actions := acts1, errored := false }
        else if HasFulfilled ful p.addr Label.znodeListSync = true then
          processPeers env now s ful rest
        else if p.nVersion < env.minPaymentsProto then
          processPeers env now s (AddFulfilledRequest ful p.addr Label.znodeListSync) rest
        else
          { state := { s with nRequestedZnodeAttempt := s.nRequestedZnodeAttempt + 1 }
            fulfilled := AddFulfilledRequest ful p.addr Label.znodeListSync
            msgs := [(p.id, Msg.dsegUpdate)], disconnected := []
            actions := [], errored := false }
      else if s.nRequestedZnodeAssets = ZNODE_SYNC_MNW then
        if s.nTimeLastPaymentVote < now - ZNODE_SYNC_TIMEOUT_SECONDS then
          if s.nRequestedZnodeAttempt = 0 then
            { state := Fail now s, fulfilled := ful, msgs := [], disconnected := []
              actions := [], errored := false }
          else
            match SwitchToNextAsset now env.lockRecv env.vNodes s ful with
            | Except.error _ => errorResult s ful
            | Except.ok (s1, ful1, acts1) =>
              { state := s1, fulfilled := ful1, msgs := [], disconnected := []
                actions := acts1, errored := false }
        else if s.nRequestedZnodeAttempt > 1 ∧ env.isEnoughData = true then
          match SwitchToNextAsset now env.lockRecv env.vNodes s ful with
          | Except.error _ => errorResult s ful
          | Except.ok (s1, ful1, acts1) =>
            { state := s1, fulfilled := ful1, msgs := [], disconnected := []
              actions := acts1, errored := false }
        else if HasFulfilled ful p.addr Label.znodePaymentSync = true then
          processPeers env now s ful rest
        else if p.nVersion < env.minPaymentsProto then
          processPeers env now s (AddFulfilledRequest ful p.addr Label.znodePaymentSync) rest
        else
          { state := { s with nRequestedZnodeAttempt := s.nRequestedZnodeAttempt + 1 }
            fulfilled := AddFulfilledRequest ful p.addr Label.znodePaymentSync
            msgs := [(p.id, Msg.znodePaymentSync env.storageLimit),
                     (p.id, Msg.requestLowDataPaymentBlocks)]
            disconnected := [], actions := [], errored := false }
      else
        processPeers env now s ful rest

/-- CZnodeSync::ProcessTick from line 306 on: the chain-sync gating that
refreshes the phase timestamps while the blockchain lags (outside regtest),
the Initial / Sporks bootstrap via SwitchToNextAsset, and the per-peer pass. -/
def ProcessTickMain (env : TickEnv) (now : Int) (s : SyncState)
    (ful : FulfilledSet) : TickResult :=
  if env.regtest = false ∧ env.blockchainSynced = false ∧
      s.nRequestedZnodeAssets > ZNODE_SYNC_SPORKS then
    noopResult { s with
                  nTimeLastZnodeList := now
                  nTimeLastPaymentVote := now
                  nTimeLastGovernanceItem := now } ful
  else if s.nRequestedZnodeAssets = ZNODE_SYNC_INITIAL ∨
      (s.nRequestedZnodeAssets = ZNODE_SYNC_SPORKS ∧ env.blockchainSynced = true) then
    match SwitchToNextAsset now env.lockRecv env.vNodes s ful with
    | Except.error _ => errorResult s ful
    | Except.ok (s1, ful1, acts1) =>
      withActs acts1 (processPeers env now s1 ful1 env.vNodes)
  else processPeers env now s ful env.vNodes

/-- CZnodeSync::ProcessTick (znode-sync.cpp lines 270-514). `nTick` is the
static invocation counter (work happens only when it is divisible by the tick
interval). The resync guard (phase Finished with an empty roster) performs a
full Reset and then falls through to the rest of the tick; the failure branch
(phase Failed) resets only after the sixty-second cooldown has strictly
elapsed and returns in either case. -/
def ProcessTick (env : TickEnv) (now : Int) (nTick : Int) (s : SyncState)
    (ful : FulfilledSet) : TickResult :=
  if nTick % ZNODE_SYNC_TICK_SECONDS ≠ 0 then noopResult s ful
  else if env.haveBlockIndex = false then noopResult s ful
  else if s.nRequestedZnodeAssets = ZNODE_SYNC_FINISHED then
    if env.nMnCount = 0 then ProcessTickMain env now (Reset now s) ful
    else noopResult s ful
  else if s.nRequestedZnodeAssets = ZNODE_SYNC_FAILED then
    if s.nTimeLastFailure + 1 * 60 < now then noopResult (Reset now s) ful
    else noopResult s ful
  else ProcessTickMain env now s ful

/-- Classification used by the pacing property: every message other than the
spork (feature-flag) request is a phase-specific request. -/
def phaseSpecific : Msg → Bool
  | Msg.getSporks => false
  | _ => true

/-! ### Concrete fixtures used by witnesses and counterexamples -/

def mkPeer (n : Nat) : Peer :=
  { id := n, addr := n, fZnode := false, fInbound := false, nVersion := 90025,
    fDisconnect := false }

def peerA : Peer := mkPeer 1

def peerB : Peer := mkPeer 2

/-- A state in the Finished phase. -/
def sFinished0 : SyncState :=
  { nRequestedZnodeAssets := ZNODE_SYNC_FINISHED, nRequestedZnodeAttempt := 3
    nTimeAssetSyncStarted := 10, nTimeLastZnodeList := 10, nTimeLastPaymentVote := 10
    nTimeLastGovernanceItem := 10, nTimeLastFailure := 0, nCountFailures := 0 }

/-- A state in the Failed phase with the failure stamped at time 100. -/
def sFailed0 : SyncState :=
  { nRequestedZnodeAssets := ZNODE_SYNC_FAILED, nRequestedZnodeAttempt := 0
    nTimeAssetSyncStarted := 100, nTimeLastZnodeList := 100, nTimeLastPaymentVote := 100
    nTimeLastGovernanceItem := 100, nTimeLastFailure := 100, nCountFailures := 0 }

/-- A state in the PaymentVotes (MNW) phase with attemptCount 5 and the phase
start stamped at time 7. -/
def sMnw5 : SyncState :=
  { nRequestedZnodeAssets := ZNODE_SYNC_MNW, nRequestedZnodeAttempt := 5
    nTimeAssetSyncStarted := 7, nTimeLastZnodeList := 50, nTimeLastPaymentVote := 50
    nTimeLastGovernanceItem := 50, nTimeLastFailure := 0, nCountFailures := 0 }

/-- A state in the PaymentVotes (MNW) phase with attemptCount 2 and recent
request timestamps (no timeout at tick time 100). -/
def sMnw2 : SyncState :=
  { nRequestedZnodeAssets := ZNODE_SYNC_MNW, nRequestedZnodeAttempt := 2
    nTimeAssetSyncStarted := 90, nTimeLastZnodeList := 95, nTimeLastPaymentVote := 95
    nTimeLastGovernanceItem := 95, nTimeLastFailure := 0, nCountFailures := 0 }

/-- A state in the Roster (LIST) phase with attemptCount 0 and recent request
timestamps (no timeout at tick time 100). -/
def sList0 : SyncState :=
  { nRequestedZnodeAssets := ZNODE_SYNC_LIST, nRequestedZnodeAttempt := 0
    nTimeAssetSyncStarted := 90, nTimeLastZnodeList := 100, nTimeLastPaymentVote := 100
    nTimeLastGovernanceItem := 100, nTimeLastFailure := 0, nCountFailures := 0 }

/-- A state in the Roster (LIST) phase with attemptCount 4. -/
def sList4 : SyncState :=
  { nRequestedZnodeAssets := ZNODE_SYNC_LIST, nRequestedZnodeAttempt := 4
    nTimeAssetSyncStarted := 7, nTimeLastZnodeList := 50, nTimeLastPaymentVote := 50
    nTimeLastGovernanceItem := 50, nTimeLastFailure := 0, nCountFailures := 0 }

/-- A tick environment in normal network mode with an empty peer snapshot. -/
def tickEnvNoPeers : TickEnv :=
  { regtest := false, fZNode := false, nMnCount := 0, haveBlockIndex := true
    blockchainSynced := true, isEnoughData := true, minPaymentsProto := 90025
    storageLimit := 10, lockRecv := true, vNodes := [] }

/-- A tick environment in normal network mode with two eligible peers. -/
def tickEnvTwoPeers : TickEnv :=
  { regtest := false, fZNode := false, nMnCount := 5, haveBlockIndex := true
    blockchainSynced := true, isEnoughData := false, minPaymentsProto := 90025
    storageLimit := 10, lockRecv := true, vNodes := [peerA, peerB] }

/-- A tick environment in normal network mode with one eligible peer and a
payment-vote ledger reporting sufficient data. -/
def tickEnvOnePeer : TickEnv :=
  { regtest := false, fZNode := false, nMnCount := 5, haveBlockIndex := true
    blockchainSynced := true, isEnoughData := true, minPaymentsProto := 90025
    storageLimit := 10, lockRecv := true, vNodes := [peerA] }

/-- A tick environment in regtest (quick) mode with one eligible peer. -/
def tickEnvRegtest : TickEnv :=
  { regtest := true, fZNode := false, nMnCount := 5, haveBlockIndex := true
    blockchainSynced := true, isEnoughData := false, minPaymentsProto := 90025
    storageLimit := 10, lockRecv := false, vNodes := [peerA] }

/-- peerA has been asked for sporks already; peerB has not. -/
def fulSporkA : FulfilledSet := [(1, Label.sporkSync)]

/-- Six peers, all reporting the same heights as the local chain. -/
def healthyPeers : List Peer :=
  [mkPeer 1, mkPeer 2, mkPeer 3, mkPeer 4, mkPeer 5, mkPeer 6]

def statsAt100 : List (Nat × Int × Int) :=
  [(1, 100, 100), (2, 100, 100), (3, 100, 100), (4, 100, 100), (5, 100, 100),
   (6, 100, 100)]

/-- A gate environment where the peer-consensus fast path succeeds: six
connected peers, all at the local height 100. -/
def gateEnvConsensus : GateEnv :=
  { pCurrentBlockIndex := some (100, 50), pindexBestHeader := some (100, 50)
    fImporting := false, fReindex := false, fCheckpointsEnabled := false
    checkpointsEstimate := 0, maxTipAge := 86400, vNodes := healthyPeers
    nodeStats := statsAt100 }

def gateStEx : GateStatics :=
  { fBlockchainSynced := true, nTimeLastProcess := 98, nSkipped := 3
    fFirstBlockAccepted := false }

/-! ### C7: peer health classification -/

/-- C7: for every peer, CheckNodeHeight returns false with no side effect when
the height statistics are unavailable or either reported height is -1; when the
local height exceeds the common height by more than one block it returns false
and sets the disconnect flag iff fDisconnectStuckNodes is set; when the local
height is more than one block behind the announced sync height it returns false
and never sets the disconnect flag; otherwise it returns true. -/
theorem c7_peer_health_classification (localHeight common sync : Int) (flag : Bool)
    (p : Peer) (hd : p.fDisconnect = false) :
    (CheckNodeHeight localHeight none flag p = (false, p)) ∧
    ((common = -1 ∨ sync = -1) →
      CheckNodeHeight localHeight (some (common, sync)) flag p = (false, p)) ∧
    (common ≠ -1 → sync ≠ -1 → localHeight - common > 1 →
      (CheckNodeHeight localHeight (some (common, sync)) flag p).1 = false ∧
      (CheckNodeHeight localHeight (some (common, sync)) flag p).2.fDisconnect = flag) ∧
    (common ≠ -1 → sync ≠ -1 → localHeight - common ≤ 1 → sync - localHeight > 1 →
      CheckNodeHeight localHeight (some (common, sync)) flag p = (false, p)) ∧
    (common ≠ -1 → sync ≠ -1 → localHeight - common ≤ 1 → sync - localHeight ≤ 1 →
      CheckNodeHeight localHeight (some (common, sync)) flag p = (true, p)) := by
  refine ⟨rfl, ?_, ?_, ?_, ?_⟩
  · rintro (h | h) <;> simp [CheckNodeHeight, h]
  · intro h1 h2 h3
    have hg : localHeight - 1 > common := by omega
    cases flag with
    | false => simp [CheckNodeHeight, h1, h2, hg, hd]
    | true => simp [CheckNodeHeight, h1, h2, hg]
  · intro h1 h2 h3 h4
    have hg : ¬ localHeight - 1 > common := by omega
    have hg2 : localHeight < sync - 1 := by omega
    simp [CheckNodeHeight, h1, h2, hg, hg2]
  · intro h1 h2 h3 h4
    have hg : ¬ localHeight - 1 > common := by omega
    have hg2 : ¬ localHeight < sync - 1 := by omega
    simp [CheckNodeHeight, h1, h2, hg, hg2]

/-- Witness for C7 at a concrete stuck peer: local height 100, common height
97, announced height 100, disconnect requested. -/
theorem c7_peer_health_classification_witness :
    (CheckNodeHeight 100 (some (97, 100)) true peerA).1 = false ∧
    (CheckNodeHeight 100 (some (97, 100)) true peerA).2.fDisconnect = true :=
  (c7_peer_health_classification 100 97 100 true peerA rfl).2.2.1
    (by decide) (by decide) (by decide)

/-! ### C3: transitions reset attemptCount and stamp phaseStartedAt -/

/-- The state sMnw5 after the early-returning PaymentVotes-to-Finished switch
(lock contended): phase Finished, attemptCount and phaseStartedAt untouched. -/
def sMnw5Fin : SyncState :=
  { sMnw5 with
    nTimeLastGovernanceItem := 100
    nRequestedZnodeAssets := ZNODE_SYNC_FINISHED }

/-- The state sList4 after the Roster-to-PaymentVotes switch at time 100. -/
def sList4Sw : SyncState :=
  { sList4 with
    nTimeLastPaymentVote := 100
    nRequestedZnodeAssets := ZNODE_SYNC_MNW
    nRequestedZnodeAttempt := 0
    nTimeAssetSyncStarted := 100 }

/-- C3 counterexample: from the PaymentVotes (MNW) phase with the node-list
lock contended, SwitchToNextAsset moves to Finished but returns early, leaving
attemptCount at 5 (not 0) and phaseStartedAt at 7 (not the current time 100). -/
theorem c3_counterexample :
    SwitchToNextAsset 100 false [] sMnw5 [] =
      Except.ok (sMnw5Fin, [], [Action.manageState]) ∧
    sMnw5Fin.nRequestedZnodeAttempt = 5 ∧
    sMnw5Fin.nTimeAssetSyncStarted = 7 ∧
    (5 : Int) ≠ 0 ∧ (7 : Int) ≠ 100 :=
  ⟨rfl, by decide, by decide, by decide, by decide⟩

/-- C3 (amended): every successful SwitchToNextAsset transition resets
attemptCount to 0 and stamps phaseStartedAt with the current time, except the
PaymentVotes-to-Finished finalization path when the node-list try-lock is
contended, in which case the early return leaves both fields unchanged. -/
theorem c3_transitions_reset_attempt (now : Int) (lockRecv : Bool)
    (vNodes : List Peer) (s : SyncState) (ful : FulfilledSet) (s1 : SyncState)
    (ful1 : FulfilledSet) (acts1 : List Action)
    (hok : SwitchToNextAsset now lockRecv vNodes s ful = Except.ok (s1, ful1, acts1))
    (hlk : lockRecv = true ∨ s.nRequestedZnodeAssets ≠ ZNODE_SYNC_MNW) :
    s1.nRequestedZnodeAttempt = 0 ∧ s1.nTimeAssetSyncStarted = now := by
  by_cases hf : s.nRequestedZnodeAssets = ZNODE_SYNC_FAILED
  · simp [SwitchToNextAsset, hf] at hok
  by_cases hi : s.nRequestedZnodeAssets = ZNODE_SYNC_INITIAL
  · simp only [SwitchToNextAsset, if_neg hf, if_pos hi, Except.ok.injEq,
      Prod.mk.injEq] at hok
    obtain ⟨hs, -⟩ := hok
    subst hs
    exact ⟨rfl, rfl⟩
  by_cases hsp : s.nRequestedZnodeAssets = ZNODE_SYNC_SPORKS
  · simp only [SwitchToNextAsset, if_neg hf, if_neg hi, if_pos hsp, Except.ok.injEq,
      Prod.mk.injEq] at hok
    obtain ⟨hs, -⟩ := hok
    subst hs
    exact ⟨rfl, rfl⟩
  by_cases hl : s.nRequestedZnodeAssets = ZNODE_SYNC_LIST
  · simp only [SwitchToNextAsset, if_neg hf, if_neg hi, if_neg hsp, if_pos hl,
      Except.ok.injEq, Prod.mk.injEq] at hok
    obtain ⟨hs, -⟩ := hok
    subst hs
    exact ⟨rfl, rfl⟩
  by_cases hm : s.nRequestedZnodeAssets = ZNODE_SYNC_MNW
  · have hlck : lockRecv = true := by
      rcases hlk with hlk | hlk
      · exact hlk
      · exact absurd hm hlk
    simp only [SwitchToNextAsset, if_neg hf, if_neg hi, if_neg hsp, if_neg hl,
      if_pos hm, if_pos hlck, Except.ok.injEq, Prod.mk.injEq] at hok
    obtain ⟨hs, -⟩ := hok
    subst hs
    exact ⟨rfl, rfl⟩
  · simp only [SwitchToNextAsset, if_neg hf, if_neg hi, if_neg hsp, if_neg hl,
      if_neg hm, Except.ok.injEq, Prod.mk.injEq] at hok
    obtain ⟨hs, -⟩ := hok
    subst hs
    exact ⟨rfl, rfl⟩

/-- Witness for C3 (amended) at the Roster-to-PaymentVotes transition. -/
theorem c3_transitions_reset_attempt_witness :
    sList4Sw.nRequestedZnodeAttempt = 0 ∧ sList4Sw.nTimeAssetSyncStarted = 100 :=
  c3_transitions_reset_attempt 100 true [] sList4 [] sList4Sw [] []
    rfl (Or.inl rfl)

/-! ### C1: resync guard falls through -/

/-- The state produced by the Initial-to-Sporks bootstrap switch. -/
def bootSporks (now : Int) (s : SyncState) : SyncState :=
  { s with
    nRequestedZnodeAssets := ZNODE_SYNC_SPORKS
    nRequestedZnodeAttempt := 0
    nTimeAssetSyncStarted := now }

/-- In normal network mode, a per-peer pass in a phase other than Roster (LIST)
or PaymentVotes (MNW) never changes the CZnodeSync state. -/
theorem processPeers_state_skip (env : TickEnv) (now : Int) (s : SyncState)
    (peers : List Peer) (ful : FulfilledSet)
    (hr : env.regtest = false)
    (hl : s.nRequestedZnodeAssets ≠ ZNODE_SYNC_LIST)
    (hm : s.nRequestedZnodeAssets ≠ ZNODE_SYNC_MNW) :
    (processPeers env now s ful peers).state = s := by
  induction peers generalizing ful with
  | nil => rfl
  | cons p rest ih =>
    simp only [processPeers, hr, hl, hm]
    split_ifs <;>
      first
      | exact (by assumption : False).elim
      | simp [ih, withDisconnect, withMsg]

/-- In regtest quick mode with attemptCount at most 5, a per-peer pass leaves
the phase, the failure counter, the failure timestamp and the phase start
stamp unchanged (only the attempt counter and the outbound messages move). -/
theorem processPeers_regtest_frame (env : TickEnv) (now : Int) (s : SyncState)
    (ful : FulfilledSet) (peers : List Peer)
    (hr : env.regtest = true) (ha : s.nRequestedZnodeAttempt ≤ 5) :
    (processPeers env now s ful peers).state.nRequestedZnodeAssets =
      s.nRequestedZnodeAssets ∧
    (processPeers env now s ful peers).state.nCountFailures = s.nCountFailures ∧
    (processPeers env now s ful peers).state.nTimeLastFailure = s.nTimeLastFailure ∧
    (processPeers env now s ful peers).state.nTimeAssetSyncStarted =
      s.nTimeAssetSyncStarted := by
  induction peers with
  | nil => exact ⟨rfl, rfl, rfl, rfl⟩
  | cons p rest ih =>
    by_cases h1 : p.fZnode = true ∨ (env.fZNode = true ∧ p.fInbound = true)
    · simpa [processPeers, h1] using ih
    · by_cases h2 : s.nRequestedZnodeAttempt ≤ 2
      · simp [processPeers, h1, hr, h2]
      · by_cases h3 : s.nRequestedZnodeAttempt < 4
        · simp [processPeers, h1, hr, h2, h3]
        · by_cases h4 : s.nRequestedZnodeAttempt < 6
          · simp [processPeers, h1, hr, h2, h3, h4]
          · exact absurd ha (by omega)

/-- ProcessTickMain on an Initial-phase state: the bootstrap switch to Sporks
fires and the per-peer pass then runs on the switched state. -/
theorem processTickMain_initial (env : TickEnv) (now : Int) (s : SyncState)
    (ful : FulfilledSet)
    (hA : s.nRequestedZnodeAssets = ZNODE_SYNC_INITIAL) :
    (ProcessTickMain env now s ful).state =
      (processPeers env now (bootSporks now s)
        (ClearFulfilledRequests env.lockRecv env.vNodes ful) env.vNodes).state := by
  have hne : ¬ s.nRequestedZnodeAssets = ZNODE_SYNC_FAILED := by rw [hA]; decide
  have hc1 : ¬ (env.regtest = false ∧ env.blockchainSynced = false ∧
      s.nRequestedZnodeAssets > ZNODE_SYNC_SPORKS) := by
    rintro ⟨-, -, hgt⟩
    rw [hA] at hgt
    exact absurd hgt (by decide)
  have hsw : SwitchToNextAsset now env.lockRecv env.vNodes s ful =
      Except.ok (bootSporks now s,
        ClearFulfilledRequests env.lockRecv env.vNodes ful, []) := by
    unfold SwitchToNextAsset bootSporks
    rw [if_neg hne, if_pos hA]
  rw [ProcessTickMain, if_neg hc1, if_pos (Or.inl hA), hsw]
  rfl

/-- C1 counterexample: with phase Finished and a roster count of zero, the
working tick resets but does not return; it immediately advances to Sporks, so
the phase at the end of the tick is Sporks, not Initial as the claim states. -/
theorem c1_counterexample :
    (ProcessTick tickEnvNoPeers 100 0 sFinished0 []).state.nRequestedZnodeAssets =
      ZNODE_SYNC_SPORKS ∧
    ZNODE_SYNC_SPORKS ≠ ZNODE_SYNC_INITIAL := by decide

/-- C1 (amended): for every working tick that starts with phase Finished and
an external roster count of zero, the tick performs the full reset (so the
failure counter and failure timestamp are cleared and the phase start stamp is
the current time) but then continues: it immediately advances Initial to
Sporks, so the phase at the end of the tick is Sporks. -/
theorem c1_finished_reset_continues (env : TickEnv) (now nTick : Int)
    (s : SyncState) (ful : FulfilledSet)
    (h1 : nTick % ZNODE_SYNC_TICK_SECONDS = 0) (h2 : env.haveBlockIndex = true)
    (h3 : s.nRequestedZnodeAssets = ZNODE_SYNC_FINISHED) (h4 : env.nMnCount = 0) :
    (ProcessTick env now nTick s ful).state.nRequestedZnodeAssets =
      ZNODE_SYNC_SPORKS ∧
    (ProcessTick env now nTick s ful).state.nCountFailures = 0 ∧
    (ProcessTick env now nTick s ful).state.nTimeLastFailure = 0 ∧
    (ProcessTick env now nTick s ful).state.nTimeAssetSyncStarted = now := by
  have htick : ¬ nTick % ZNODE_SYNC_TICK_SECONDS ≠ 0 := by rw [h1]; simp
  have hbi : ¬ env.haveBlockIndex = false := by rw [h2]; simp
  have hmain : ProcessTick env now nTick s ful =
      ProcessTickMain env now (Reset now s) ful := by
    rw [ProcessTick, if_neg htick, if_neg hbi, if_pos h3, if_pos h4]
  have hstate := processTickMain_initial env now (Reset now s) ful rfl
  rw [hmain, hstate]
  by_cases hre : env.regtest = true
  · have ha : (bootSporks now (Reset now s)).nRequestedZnodeAttempt ≤ 5 := by
      rw [show (bootSporks now (Reset now s)).nRequestedZnodeAttempt = 0 from rfl]
      decide
    obtain ⟨he1, he2, he3, he4⟩ := processPeers_regtest_frame env now
      (bootSporks now (Reset now s))
      (ClearFulfilledRequests env.lockRecv env.vNodes ful) env.vNodes hre ha
    rw [he1, he2, he3, he4]
    exact ⟨rfl, rfl, rfl, rfl⟩
  · have hre2 : env.regtest = false := by simpa using hre
    rw [processPeers_state_skip env now (bootSporks now (Reset now s)) env.vNodes
      (ClearFulfilledRequests env.lockRecv env.vNodes ful) hre2
      (by simp [bootSporks, ZNODE_SYNC_SPORKS, ZNODE_SYNC_LIST])
      (by simp [bootSporks, ZNODE_SYNC_SPORKS, ZNODE_SYNC_MNW])]
    exact ⟨rfl, rfl, rfl, rfl⟩

/-- Witness for C1 (amended) at the concrete Finished state with empty roster. -/
theorem c1_finished_reset_continues_witness :
    (ProcessTick tickEnvNoPeers 100 0 sFinished0 []).state.nRequestedZnodeAssets =
      ZNODE_SYNC_SPORKS ∧
    (ProcessTick tickEnvNoPeers 100 0 sFinished0 []).state.nCountFailures = 0 ∧
    (ProcessTick tickEnvNoPeers 100 0 sFinished0 []).state.nTimeLastFailure = 0 ∧
    (ProcessTick tickEnvNoPeers 100 0 sFinished0 []).state.nTimeAssetSyncStarted = 100 :=
  c1_finished_reset_continues tickEnvNoPeers 100 0 sFinished0 []
    (by decide) rfl rfl rfl

/-! ### C2: failure cooldown -/

/-- C2 counterexample: with the failure stamped at 100 and the cooldown of 60
seconds, the working tick at exactly time 160 (at lastFailureAt plus the
cooldown) leaves the phase Failed; the claim says the first tick at or after
the cooldown resets to Initial. -/
theorem c2_counterexample :
    (ProcessTick tickEnvNoPeers 160 0 sFailed0 []).state.nRequestedZnodeAssets =
      ZNODE_SYNC_FAILED ∧
    ZNODE_SYNC_FAILED ≠ ZNODE_SYNC_INITIAL ∧
    (160 : Int) = sFailed0.nTimeLastFailure + 60 := by decide

/-- C2 (amended): with phase Failed, every working tick whose timestamp is at
most lastFailureAt plus the 60-second cooldown is a no-op (the phase stays
Failed and nothing else happens); every working tick strictly after that bound
performs the full reset to Initial and nothing else. -/
theorem c2_cooldown (env : TickEnv) (now nTick : Int) (s : SyncState)
    (ful : FulfilledSet)
    (h1 : nTick % ZNODE_SYNC_TICK_SECONDS = 0) (h2 : env.haveBlockIndex = true)
    (h3 : s.nRequestedZnodeAssets = ZNODE_SYNC_FAILED) :
    (now ≤ s.nTimeLastFailure + 60 →
      ProcessTick env now nTick s ful = noopResult s ful) ∧
    (s.nTimeLastFailure + 60 < now →
      ProcessTick env now nTick s ful = noopResult (Reset now s) ful) := by
  have hfin : ¬ s.nRequestedZnodeAssets = ZNODE_SYNC_FINISHED := by
    rw [h3]; decide
  have htick : ¬ nTick % ZNODE_SYNC_TICK_SECONDS ≠ 0 := by
    rw [h1]; simp
  have hbi : ¬ env.haveBlockIndex = false := by
    rw [h2]; simp
  constructor
  · intro h
    have hno : ¬ s.nTimeLastFailure + 1 * 60 < now := by omega
    rw [ProcessTick, if_neg htick, if_neg hbi, if_neg hfin, if_pos h3, if_neg hno]
  · intro h
    have hyes : s.nTimeLastFailure + 1 * 60 < now := by omega
    rw [ProcessTick, if_neg htick, if_neg hbi, if_neg hfin, if_pos h3, if_pos hyes]

/-- Witness for C2 (amended): at time 150 (within the cooldown of the failure
stamped at 100) the tick is a no-op. -/
theorem c2_cooldown_witness :
    ProcessTick tickEnvNoPeers 150 0 sFailed0 [] = noopResult sFailed0 [] :=
  (c2_cooldown tickEnvNoPeers 150 0 sFailed0 [] (by decide) rfl rfl).1 (by decide)

/-! ### C5: sufficiency shortcut -/

/-- From the PaymentVotes (MNW) phase, SwitchToNextAsset always succeeds and
lands in Finished, with or without the node-list lock. -/
theorem switchToNextAsset_mnw_finished (now : Int) (lockRecv : Bool)
    (vNodes : List Peer) (s : SyncState) (ful : FulfilledSet)
    (hm : s.nRequestedZnodeAssets = ZNODE_SYNC_MNW) :
    ∃ s1 ful1 acts1,
      SwitchToNextAsset now lockRecv vNodes s ful = Except.ok (s1, ful1, acts1) ∧
      s1.nRequestedZnodeAssets = ZNODE_SYNC_FINISHED := by
  have hf : ¬ s.nRequestedZnodeAssets = ZNODE_SYNC_FAILED := by rw [hm]; decide
  have hi : ¬ s.nRequestedZnodeAssets = ZNODE_SYNC_INITIAL := by rw [hm]; decide
  have hsp : ¬ s.nRequestedZnodeAssets = ZNODE_SYNC_SPORKS := by rw [hm]; decide
  have hl : ¬ s.nRequestedZnodeAssets = ZNODE_SYNC_LIST := by rw [hm]; decide
  unfold SwitchToNextAsset
  rw [if_neg hf, if_neg hi, if_neg hsp, if_neg hl, if_pos hm]
  by_cases hlq : lockRecv = true
  · rw [if_pos hlq]
    exact ⟨_, _, _, rfl, rfl⟩
  · rw [if_neg hlq]
    exact ⟨_, _, _, rfl, rfl⟩

/-- C5 counterexample: with phase PaymentVotes, attemptCount 2, sufficient
ledger data and no timeout, a working tick whose peer snapshot is empty leaves
the phase at PaymentVotes - the advance does not happen for every content of
the peer snapshot, because the sufficiency check sits inside the per-peer
loop. -/
theorem c5_counterexample :
    (ProcessTick tickEnvNoPeers 100 0 sMnw2 []).state.nRequestedZnodeAssets =
      ZNODE_SYNC_MNW ∧
    ZNODE_SYNC_MNW ≠ ZNODE_SYNC_FINISHED ∧
    sMnw2.nRequestedZnodeAttempt > 1 ∧
    tickEnvNoPeers.isEnoughData = true ∧
    ¬ sMnw2.nTimeLastPaymentVote < 100 - ZNODE_SYNC_TIMEOUT_SECONDS := by decide

/-- C5 (amended): with phase PaymentVotes, attemptCount greater than 1,
sufficient ledger data and no timeout, the next working tick (in normal mode,
chain gate passing) advances the phase to Finished provided the scan reaches
the sufficiency check: it does so whenever the first peer of the snapshot is
an eligible peer already marked spork-sync fulfilled and not full-sync
fulfilled; with an empty snapshot no advance happens. -/
theorem c5_sufficiency_shortcut (env : TickEnv) (now nTick : Int) (s : SyncState)
    (ful : FulfilledSet) (p : Peer) (rest : List Peer)
    (h1 : nTick % ZNODE_SYNC_TICK_SECONDS = 0) (h2 : env.haveBlockIndex = true)
    (h3 : env.regtest = false) (h4 : env.blockchainSynced = true)
    (h5 : s.nRequestedZnodeAssets = ZNODE_SYNC_MNW)
    (h6 : s.nRequestedZnodeAttempt > 1) (h7 : env.isEnoughData = true)
    (h8 : ¬ s.nTimeLastPaymentVote < now - ZNODE_SYNC_TIMEOUT_SECONDS)
    (h9 : env.vNodes = p :: rest)
    (h10 : p.fZnode = false) (h11 : p.fInbound = false)
    (h12 : HasFulfilled ful p.addr Label.fullSync = false)
    (h13 : HasFulfilled ful p.addr Label.sporkSync = true) :
    (ProcessTick env now nTick s ful).state.nRequestedZnodeAssets =
      ZNODE_SYNC_FINISHED := by
  have htick : ¬ nTick % ZNODE_SYNC_TICK_SECONDS ≠ 0 := by rw [h1]; simp
  have hbi : ¬ env.haveBlockIndex = false := by rw [h2]; simp
  have hne999 : ¬ s.nRequestedZnodeAssets = ZNODE_SYNC_FINISHED := by rw [h5]; decide
  have hnef : ¬ s.nRequestedZnodeAssets = ZNODE_SYNC_FAILED := by rw [h5]; decide
  have hc1 : ¬ (env.regtest = false ∧ env.blockchainSynced = false ∧
      s.nRequestedZnodeAssets > ZNODE_SYNC_SPORKS) := by
    rintro ⟨-, hb, -⟩
    rw [h4] at hb
    cases hb
  have hc2 : ¬ (s.nRequestedZnodeAssets = ZNODE_SYNC_INITIAL ∨
      (s.nRequestedZnodeAssets = ZNODE_SYNC_SPORKS ∧ env.blockchainSynced = true)) := by
    rintro (hx | ⟨hx, -⟩) <;> (rw [h5] at hx; exact absurd hx (by decide))
  have hskip : ¬ (p.fZnode = true ∨ (env.fZNode = true ∧ p.fInbound = true)) := by
    simp [h10, h11]
  have hreg : ¬ env.regtest = true := by rw [h3]; simp
  have hfull : ¬ HasFulfilled ful p.addr Label.fullSync = true := by rw [h12]; simp
  have hspork : ¬ HasFulfilled ful p.addr Label.sporkSync = false := by rw [h13]; simp
  have hnl : ¬ s.nRequestedZnodeAssets = ZNODE_SYNC_LIST := by rw [h5]; decide
  obtain ⟨s1, ful1, acts1, hsw, hfin⟩ :=
    switchToNextAsset_mnw_finished now env.lockRecv env.vNodes s ful h5
  rw [ProcessTick, if_neg htick, if_neg hbi, if_neg hne999, if_neg hnef,
    ProcessTickMain, if_neg hc1, if_neg hc2, h9]
  simp only [processPeers]
  rw [if_neg hskip, if_neg hreg, if_neg hfull, if_neg hspork, if_neg hnl,
    if_pos h5, if_neg h8, if_pos (And.intro h6 h7), hsw]
  show s1.nRequestedZnodeAssets = ZNODE_SYNC_FINISHED
  exact hfin

/-- Witness for C5 (amended) at a concrete one-peer snapshot. -/
theorem c5_sufficiency_shortcut_witness :
    (ProcessTick tickEnvOnePeer 100 0 sMnw2 fulSporkA).state.nRequestedZnodeAssets =
      ZNODE_SYNC_FINISHED :=
  c5_sufficiency_shortcut tickEnvOnePeer 100 0 sMnw2 fulSporkA peerA []
    (by decide) rfl rfl rfl rfl (by decide) rfl (by decide) rfl rfl rfl
    (by decide) (by decide)

/-! ### Gate helper lemmas -/

/-- The evaluation tail never mutates the CZnodeSync state. -/
theorem isBlockchainSyncedMain_state (env : GateEnv) (now : Int) (cur hdr : Int × Int)
    (st : GateStatics) (s : SyncState) :
    (IsBlockchainSyncedMain env now cur hdr st s).2.2 = s := by
  unfold IsBlockchainSyncedMain
  split_ifs <;> rfl

/-- The evaluation tail never touches the first-block-accepted flag. -/
theorem isBlockchainSyncedMain_first (env : GateEnv) (now : Int) (cur hdr : Int × Int)
    (st : GateStatics) (s : SyncState) :
    (IsBlockchainSyncedMain env now cur hdr st s).2.1.fFirstBlockAccepted =
      st.fFirstBlockAccepted := by
  unfold IsBlockchainSyncedMain
  split_ifs <;> rfl

/-- The body of the gate (everything after the idle check) never mutates the
CZnodeSync state. -/
theorem isBlockchainSyncedBody_state (env : GateEnv) (now : Int) (fBA : Bool)
    (st : GateStatics) (s : SyncState) :
    (IsBlockchainSyncedBody env now fBA st s).2.2 = s := by
  unfold IsBlockchainSyncedBody
  split_ifs <;> first | rfl | apply isBlockchainSyncedMain_state

/-! ### C4: idle reset of the sync gate -/

/-- A gate statics record whose last evaluation is far in the past and whose
memoized flag is set. -/
def gateStIdle : GateStatics :=
  { fBlockchainSynced := true, nTimeLastProcess := 0, nSkipped := 0
    fFirstBlockAccepted := false }

/-- C4 counterexample: an evaluation of the sync gate 4000 seconds (more than
the one-hour idle threshold) after the previous one resets the state machine,
but then re-evaluates from scratch and - with six connected peers at the local
height - returns synced, not the not-synced the claim requires regardless of
peer conditions. -/
theorem c4_counterexample :
    (IsBlockchainSynced gateEnvConsensus 4000 false gateStIdle sFinished0).1 = true ∧
    (IsBlockchainSynced gateEnvConsensus 4000 false gateStIdle sFinished0).2.2 =
      Reset 4000 sFinished0 ∧
    4000 - gateStIdle.nTimeLastProcess > 60 * 60 := by decide

/-- C4 (amended): if an evaluation of the sync gate happens more than the
one-hour idle threshold after the previous one, it force-resets the state
machine and clears the memoized synced flag, and its outcome is independent of
the previously memoized value - but it then re-evaluates from scratch and may
return synced again if current peer or chain conditions re-establish sync. -/
theorem c4_idle_reset_reevaluates (env : GateEnv) (now : Int) (fBA : Bool)
    (st : GateStatics) (s : SyncState)
    (h : now - st.nTimeLastProcess > 60 * 60) :
    (IsBlockchainSynced env now fBA st s).2.2 = Reset now s ∧
    IsBlockchainSynced env now fBA st s =
      IsBlockchainSynced env now fBA { st with fBlockchainSynced := false } s := by
  have h2 : now - ({ st with fBlockchainSynced := false } : GateStatics).nTimeLastProcess
      > 60 * 60 := h
  constructor
  · rw [IsBlockchainSynced, if_pos h]
    apply isBlockchainSyncedBody_state
  · simp only [IsBlockchainSynced]
    rw [if_pos h, if_pos h2]

/-- Witness for C4 (amended) at the concrete idle scenario. -/
theorem c4_idle_reset_reevaluates_witness :
    (IsBlockchainSynced gateEnvConsensus 4000 false gateStIdle sFinished0).2.2 =
      Reset 4000 sFinished0 ∧
    IsBlockchainSynced gateEnvConsensus 4000 false gateStIdle sFinished0 =
      IsBlockchainSynced gateEnvConsensus 4000 false
        { gateStIdle with fBlockchainSynced := false } sFinished0 :=
  c4_idle_reset_reevaluates gateEnvConsensus 4000 false gateStIdle sFinished0
    (by decide)

/-! ### C6: the block-accepted restart branch -/

/-- The expected statics after the restart branch fires on gateStEx at 100. -/
def gateStExRestarted : GateStatics :=
  { fBlockchainSynced := false, nTimeLastProcess := 100, nSkipped := 3
    fFirstBlockAccepted := true }

/-- C6 counterexample: with the state machine in the Failed phase, the gate
called with blockJustAccepted still takes the restart branch (first block
accepted marked, memoized flag cleared, timestamp updated, not-synced
returned), contradicting the claim that it does not when the phase is Failed. -/
theorem c6_counterexample :
    IsBlockchainSynced gateEnvConsensus 100 true gateStEx sFailed0 =
      (false, gateStExRestarted, sFailed0) ∧
    sFailed0.nRequestedZnodeAssets = ZNODE_SYNC_FAILED ∧
    gateStExRestarted.fFirstBlockAccepted = true := by decide

/-- C6 (amended): under available chain references, no import/reindex and no
idle reset, the gate called with blockJustAccepted takes the restart branch
exactly when the phase is not Finished - the phase Failed included, since the
source guards the branch only with !IsSynced(). -/
theorem c6_restart_branch_iff_not_finished (env : GateEnv) (now : Int)
    (st : GateStatics) (s : SyncState)
    (hc : env.pCurrentBlockIndex ≠ none) (hh : env.pindexBestHeader ≠ none)
    (hi : env.fImporting = false) (hr : env.fReindex = false)
    (hg : ¬ now - st.nTimeLastProcess > 60 * 60)
    (hf : st.fFirstBlockAccepted = false) :
    ((IsBlockchainSynced env now true st s).2.1.fFirstBlockAccepted = true ↔
      s.nRequestedZnodeAssets ≠ ZNODE_SYNC_FINISHED) ∧
    (s.nRequestedZnodeAssets ≠ ZNODE_SYNC_FINISHED →
      IsBlockchainSynced env now true st s = (false, restartStatics now st, s)) := by
  have hguard : ¬ (env.pCurrentBlockIndex = none ∨ env.pindexBestHeader = none ∨
      env.fImporting = true ∨ env.fReindex = true) := by
    simp [hc, hh, hi, hr]
  have hwrap : IsBlockchainSynced env now true st s =
      IsBlockchainSyncedBody env now true st s := by
    rw [IsBlockchainSynced, if_neg hg]
  by_cases hfin : s.nRequestedZnodeAssets = ZNODE_SYNC_FINISHED
  · have hne : ¬ s.nRequestedZnodeAssets ≠ ZNODE_SYNC_FINISHED := by simp [hfin]
    have hbody : IsBlockchainSyncedBody env now true st s =
        IsBlockchainSyncedMain env now (env.pCurrentBlockIndex.getD (0, 0))
          (env.pindexBestHeader.getD (0, 0)) st s := by
      rw [IsBlockchainSyncedBody, if_neg hguard, if_pos rfl, if_neg hne]
    constructor
    · rw [hwrap, hbody, isBlockchainSyncedMain_first, hf]
      simp [hfin]
    · intro hcon
      exact absurd hcon hne
  · have hbody : IsBlockchainSyncedBody env now true st s =
        (false, restartStatics now st, s) := by
      rw [IsBlockchainSyncedBody, if_neg hguard, if_pos rfl, if_pos hfin]
    constructor
    · rw [hwrap, hbody]
      simp [restartStatics, hfin]
    · intro _
      rw [hwrap, hbody]

/-! ### C8: request pacing -/

/-- In a normal-mode per-peer pass, all phase-specific requests in the emitted
message list go to a single peer: the scan returns right after the first
substantive request. -/
theorem processPeers_one_target (env : TickEnv) (now : Int) (s : SyncState)
    (ful : FulfilledSet) (peers : List Peer) (hr : env.regtest = false) :
    ∃ pid, ∀ m ∈ (processPeers env now s ful peers).msgs,
      phaseSpecific m.2 = true → m.1 = pid := by
  have hreg : ¬ env.regtest = true := by rw [hr]; simp
  induction peers generalizing ful with
  | nil => exact ⟨0, by simp [processPeers, noopResult]⟩
  | cons p rest ih =>
    simp only [processPeers]
    by_cases h1 : p.fZnode = true ∨ (env.fZNode = true ∧ p.fInbound = true)
    · rw [if_pos h1]
      exact ih ful
    rw [if_neg h1, if_neg hreg]
    by_cases h2 : HasFulfilled ful p.addr Label.fullSync = true
    · rw [if_pos h2]
      obtain ⟨pid, hp⟩ := ih ful
      exact ⟨pid, fun m hm hps => hp m (by simpa [withDisconnect] using hm) hps⟩
    rw [if_neg h2]
    by_cases h3 : HasFulfilled ful p.addr Label.sporkSync = false
    · rw [if_pos h3]
      obtain ⟨pid, hp⟩ := ih (AddFulfilledRequest ful p.addr Label.sporkSync)
      refine ⟨pid, fun m hm hps => ?_⟩
      rcases List.mem_cons.mp (by simpa [withMsg] using hm) with hEq | hmem
      · rw [hEq] at hps
        simp [phaseSpecific] at hps
      · exact hp m hmem hps
    rw [if_neg h3]
    by_cases h4 : s.nRequestedZnodeAssets = ZNODE_SYNC_LIST
    · rw [if_pos h4]
      by_cases h5 : s.nTimeLastZnodeList < now - ZNODE_SYNC_TIMEOUT_SECONDS
      · rw [if_pos h5]
        by_cases h6 : s.nRequestedZnodeAttempt = 0
        · rw [if_pos h6]
          exact ⟨0, by simp⟩
        · rw [if_neg h6]
          rcases hsw : SwitchToNextAsset now env.lockRecv env.vNodes s ful with e | t
          · exact ⟨0, by simp [errorResult]⟩
          · obtain ⟨s1, ful1, acts1⟩ := t
            exact ⟨0, by simp⟩
      · rw [if_neg h5]
        by_cases h7 : HasFulfilled ful p.addr Label.znodeListSync = true
        · rw [if_pos h7]
          exact ih ful
        rw [if_neg h7]
        by_cases h8 : p.nVersion < env.minPaymentsProto
        · rw [if_pos h8]
          exact ih (AddFulfilledRequest ful p.addr Label.znodeListSync)
        · rw [if_neg h8]
          exact ⟨p.id, by simp⟩
    rw [if_neg h4]
    by_cases h9 : s.nRequestedZnodeAssets = ZNODE_SYNC_MNW
    · rw [if_pos h9]
      by_cases h10 : s.nTimeLastPaymentVote < now - ZNODE_SYNC_TIMEOUT_SECONDS
      · rw [if_pos h10]
        by_cases h11 : s.nRequestedZnodeAttempt = 0
        · rw [if_pos h11]
          exact ⟨0, by simp⟩
        · rw [if_neg h11]
          rcases hsw : SwitchToNextAsset now env.lockRecv env.vNodes s ful with e | t
          · exact ⟨0, by simp [errorResult]⟩
          · obtain ⟨s1, ful1, acts1⟩ := t
            exact ⟨0, by simp⟩
      · rw [if_neg h10]
        by_cases h12 : s.nRequestedZnodeAttempt > 1 ∧ env.isEnoughData = true
        · rw [if_pos h12]
          rcases hsw : SwitchToNextAsset now env.lockRecv env.vNodes s ful with e | t
          · exact ⟨0, by simp [errorResult]⟩
          · obtain ⟨s1, ful1, acts1⟩ := t
            exact ⟨0, by simp⟩
        · rw [if_neg h12]
          by_cases h13 : HasFulfilled ful p.addr Label.znodePaymentSync = true
          · rw [if_pos h13]
            exact ih ful
          rw [if_neg h13]
          by_cases h14 : p.nVersion < env.minPaymentsProto
          · rw [if_pos h14]
            exact ih (AddFulfilledRequest ful p.addr Label.znodePaymentSync)
          · rw [if_neg h14]
            exact ⟨p.id, by simp⟩
    · rw [if_neg h9]
      exact ih ful

/-- The single-target property lifted to the tick body. -/
theorem processTickMain_one_target (env : TickEnv) (now : Int) (s : SyncState)
    (ful : FulfilledSet) (hr : env.regtest = false) :
    ∃ pid, ∀ m ∈ (ProcessTickMain env now s ful).msgs,
      phaseSpecific m.2 = true → m.1 = pid := by
  unfold ProcessTickMain
  split_ifs
  · exact ⟨0, by simp [noopResult]⟩
  · rcases hsw : SwitchToNextAsset now env.lockRecv env.vNodes s ful with e | t
    · exact ⟨0, by simp [errorResult]⟩
    · obtain ⟨s1, ful1, acts1⟩ := t
      obtain ⟨pid, hp⟩ := processPeers_one_target env now s1 ful1 env.vNodes hr
      exact ⟨pid, fun m hm hps => hp m (by simpa [withActs] using hm) hps⟩
  · exact processPeers_one_target env now s ful env.vNodes hr

/-- C8 counterexample: in the Roster phase with peerA spork-fulfilled and
peerB not, the tick sends the roster request to peerA and returns; peerB,
though eligible and not yet spork-fulfilled, receives no feature-flag request
in that tick - against the claim that sporks go to every such peer. -/
theorem c8_counterexample :
    (ProcessTick tickEnvTwoPeers 100 0 sList0 fulSporkA).msgs =
      [(1, Msg.dsegUpdate)] ∧
    HasFulfilled fulSporkA 2 Label.sporkSync = false ∧
    peerB.addr = 2 ∧
    ¬ (2, Msg.getSporks) ∈ (ProcessTick tickEnvTwoPeers 100 0 sList0 fulSporkA).msgs := by
  decide

/-- C8 (amended): in normal (non-regtest) mode, within any single working tick
at most one distinct peer receives a phase-specific request (all phase-specific
messages of the tick target a single peer id); feature-flag (spork) requests
are sent to the eligible not-yet-fulfilled peers scanned before the tick
returns, which - as the counterexample shows - can exclude peers later in the
snapshot. -/
theorem c8_one_phase_specific_target (env : TickEnv) (now nTick : Int)
    (s : SyncState) (ful : FulfilledSet) (hr : env.regtest = false) :
    ∃ pid, ∀ m ∈ (ProcessTick env now nTick s ful).msgs,
      phaseSpecific m.2 = true → m.1 = pid := by
  unfold ProcessTick
  split_ifs
  · exact ⟨0, by simp [noopResult]⟩
  · exact ⟨0, by simp [noopResult]⟩
  · exact processTickMain_one_target env now (Reset now s) ful hr
  · exact ⟨0, by simp [noopResult]⟩
  · exact ⟨0, by simp [noopResult]⟩
  · exact ⟨0, by simp [noopResult]⟩
  · exact processTickMain_one_target env now s ful hr

/-- Witness for C8 (amended) at the concrete two-peer Roster tick. -/
theorem c8_one_phase_specific_target_witness :
    ∃ pid, ∀ m ∈ (ProcessTick tickEnvTwoPeers 100 0 sList0 fulSporkA).msgs,
      phaseSpecific m.2 = true → m.1 = pid :=
  c8_one_phase_specific_target tickEnvTwoPeers 100 0 sList0 fulSporkA rfl

/-- Witness for C6 (amended) at the concrete Failed-phase scenario. -/
theorem c6_restart_branch_iff_not_finished_witness :
    ((IsBlockchainSynced gateEnvConsensus 100 true gateStEx sFailed0).2.1.fFirstBlockAccepted
        = true ↔
      sFailed0.nRequestedZnodeAssets ≠ ZNODE_SYNC_FINISHED) ∧
    (sFailed0.nRequestedZnodeAssets ≠ ZNODE_SYNC_FINISHED →
      IsBlockchainSynced gateEnvConsensus 100 true gateStEx sFailed0 =
        (false, restartStatics 100 gateStEx, sFailed0)) :=
  c6_restart_branch_iff_not_finished gateEnvConsensus 100 gateStEx sFailed0
    (by decide) (by decide) rfl rfl (by decide) rfl

/-! ### C9: the failure counter never counts -/

/-- SwitchToNextAsset never changes the failure counter. -/
theorem switchToNextAsset_count (now : Int) (lockRecv : Bool) (vNodes : List Peer)
    (s : SyncState) (ful : FulfilledSet) (s1 : SyncState) (ful1 : FulfilledSet)
    (acts1 : List Action)
    (hok : SwitchToNextAsset now lockRecv vNodes s ful = Except.ok (s1, ful1, acts1)) :
    s1.nCountFailures = s.nCountFailures := by
  unfold SwitchToNextAsset at hok
  split_ifs at hok <;> cases hok <;> rfl

/-- The per-peer pass never changes the failure counter. -/
theorem processPeers_count (env : TickEnv) (now : Int) (s : SyncState)
    (ful : FulfilledSet) (peers : List Peer) :
    (processPeers env now s ful peers).state.nCountFailures = s.nCountFailures := by
  induction peers generalizing ful with
  | nil => rfl
  | cons p rest ih =>
    simp only [processPeers]
    by_cases h1 : p.fZnode = true ∨ (env.fZNode = true ∧ p.fInbound = true)
    · rw [if_pos h1]
      exact ih ful
    rw [if_neg h1]
    by_cases h0 : env.regtest = true
    · rw [if_pos h0]
      by_cases g2 : s.nRequestedZnodeAttempt ≤ 2
      · rw [if_pos g2]
      rw [if_neg g2]
      by_cases g4 : s.nRequestedZnodeAttempt < 4
      · rw [if_pos g4]
      rw [if_neg g4]
      by_cases g6 : s.nRequestedZnodeAttempt < 6
      · rw [if_pos g6]
      · rw [if_neg g6]
    rw [if_neg h0]
    by_cases h2 : HasFulfilled ful p.addr Label.fullSync = true
    · rw [if_pos h2]
      exact ih ful
    rw [if_neg h2]
    by_cases h3 : HasFulfilled ful p.addr Label.sporkSync = false
    · rw [if_pos h3]
      exact ih (AddFulfilledRequest ful p.addr Label.sporkSync)
    rw [if_neg h3]
    by_cases h4 : s.nRequestedZnodeAssets = ZNODE_SYNC_LIST
    · rw [if_pos h4]
      by_cases h5 : s.nTimeLastZnodeList < now - ZNODE_SYNC_TIMEOUT_SECONDS
      · rw [if_pos h5]
        by_cases h6 : s.nRequestedZnodeAttempt = 0
        · rw [if_pos h6]
          rfl
        · rw [if_neg h6]
          rcases hsw : SwitchToNextAsset now env.lockRecv env.vNodes s ful with
            e | ⟨s1, ful1, acts1⟩
          · rfl
          · exact switchToNextAsset_count now env.lockRecv env.vNodes s ful s1
              ful1 acts1 hsw
      · rw [if_neg h5]
        by_cases h7 : HasFulfilled ful p.addr Label.znodeListSync = true
        · rw [if_pos h7]
          exact ih ful
        rw [if_neg h7]
        by_cases h8 : p.nVersion < env.minPaymentsProto
        · rw [if_pos h8]
          exact ih (AddFulfilledRequest ful p.addr Label.znodeListSync)
        · rw [if_neg h8]
    rw [if_neg h4]
    by_cases h9 : s.nRequestedZnodeAssets = ZNODE_SYNC_MNW
    · rw [if_pos h9]
      by_cases h10 : s.nTimeLastPaymentVote < now - ZNODE_SYNC_TIMEOUT_SECONDS
      · rw [if_pos h10]
        by_cases h11 : s.nRequestedZnodeAttempt = 0
        · rw [if_pos h11]
          rfl
        · rw [if_neg h11]
          rcases hsw : SwitchToNextAsset now env.lockRecv env.vNodes s ful with
            e | ⟨s1, ful1, acts1⟩
          · rfl
          · exact switchToNextAsset_count now env.lockRecv env.vNodes s ful s1
              ful1 acts1 hsw
      · rw [if_neg h10]
        by_cases h12 : s.nRequestedZnodeAttempt > 1 ∧ env.isEnoughData = true
        · rw [if_pos h12]
          rcases hsw : SwitchToNextAsset now env.lockRecv env.vNodes s ful with
            e | ⟨s1, ful1, acts1⟩
          · rfl
          · exact switchToNextAsset_count now env.lockRecv env.vNodes s ful s1
              ful1 acts1 hsw
        · rw [if_neg h12]
          by_cases h13 : HasFulfilled ful p.addr Label.znodePaymentSync = true
          · rw [if_pos h13]
            exact ih ful
          rw [if_neg h13]
          by_cases h14 : p.nVersion < env.minPaymentsProto
          · rw [if_pos h14]
            exact ih (AddFulfilledRequest ful p.addr Label.znodePaymentSync)
          · rw [if_neg h14]
    · rw [if_neg h9]
      exact ih ful

/-- The tick body never changes the failure counter. -/
theorem processTickMain_count (env : TickEnv) (now : Int) (s : SyncState)
    (ful : FulfilledSet) :
    (ProcessTickMain env now s ful).state.nCountFailures = s.nCountFailures := by
  unfold ProcessTickMain
  split_ifs
  · rfl
  · rcases hsw : SwitchToNextAsset now env.lockRecv env.vNodes s ful with
      e | ⟨s1, ful1, acts1⟩
    · rfl
    · have h1 : (withActs acts1 (processPeers env now s1 ful1 env.vNodes)).state.nCountFailures
          = s1.nCountFailures := processPeers_count env now s1 ful1 env.vNodes
      rw [h1]
      exact switchToNextAsset_count now env.lockRecv env.vNodes s ful s1 ful1 acts1 hsw
  · exact processPeers_count env now s ful env.vNodes

/-- A tick keeps the failure counter at zero. -/
theorem processTick_count (env : TickEnv) (now nTick : Int) (s : SyncState)
    (ful : FulfilledSet) (h : s.nCountFailures = 0) :
    (ProcessTick env now nTick s ful).state.nCountFailures = 0 := by
  unfold ProcessTick
  split_ifs
  · exact h
  · exact h
  · rw [processTickMain_count]
    rfl
  · exact h
  · rfl
  · exact h
  · rw [processTickMain_count]
    exact h

/-- The blockchain sync gate keeps the failure counter at zero. -/
theorem isBlockchainSynced_count (env : GateEnv) (now : Int) (fBA : Bool)
    (st : GateStatics) (s : SyncState) (h : s.nCountFailures = 0) :
    (IsBlockchainSynced env now fBA st s).2.2.nCountFailures = 0 := by
  unfold IsBlockchainSynced
  split_ifs
  · rw [isBlockchainSyncedBody_state]
    rfl
  · rw [isBlockchainSyncedBody_state]
    exact h

/-- Modelled from the spec: the CZnodeSync constructor is declared in
znode-sync.h, which is absent from src/; per the spec's data model (section 3)
and the full reset of section 4.4 we take any state produced by Reset as
initial. The steps are the state-mutating operations of znode-sync.cpp:
Fail, Reset, SwitchToNextAsset, ProcessTick, and IsBlockchainSynced (whose
idle branch calls Reset). -/
inductive ReachableSync : SyncState → Prop
  | init (now : Int) (s0 : SyncState) : ReachableSync (Reset now s0)
  | fail_step (now : Int) (s : SyncState) : ReachableSync s →
      ReachableSync (Fail now s)
  | reset_step (now : Int) (s : SyncState) : ReachableSync s →
      ReachableSync (Reset now s)
  | switch_step (now : Int) (lockRecv : Bool) (vNodes : List Peer)
      (ful : FulfilledSet) (s s1 : SyncState) (ful1 : FulfilledSet)
      (acts1 : List Action) : ReachableSync s →
      SwitchToNextAsset now lockRecv vNodes s ful = Except.ok (s1, ful1, acts1) →
      ReachableSync s1
  | tick_step (env : TickEnv) (now nTick : Int) (s : SyncState)
      (ful : FulfilledSet) : ReachableSync s →
      ReachableSync ((ProcessTick env now nTick s ful).state)
  | gate_step (env : GateEnv) (now : Int) (fBA : Bool) (st : GateStatics)
      (s : SyncState) : ReachableSync s →
      ReachableSync ((IsBlockchainSynced env now fBA st s).2.2)

/-- C9: in every reachable CZnodeSync state, nCountFailures equals 0: Reset
sets it to 0, and no operation - Fail included, which only stamps
lastFailureAt and sets the phase to Failed - ever increments it, so the
informational failure counter never records any failure. -/
theorem c9_failure_counter_always_zero (s : SyncState) (h : ReachableSync s) :
    s.nCountFailures = 0 := by
  induction h with
  | init now s0 => rfl
  | fail_step now s hs ih => exact ih
  | reset_step now s hs ih => rfl
  | switch_step now lockRecv vNodes ful s s1 ful1 acts1 hs hok ih =>
    rw [switchToNextAsset_count now lockRecv vNodes s ful s1 ful1 acts1 hok]
    exact ih
  | tick_step env now nTick s ful hs ih =>
    exact processTick_count env now nTick s ful ih
  | gate_step env now fBA st s hs ih =>
    exact isBlockchainSynced_count env now fBA st s ih

/-- Witness for C9 at a concrete reachable Failed state. -/
theorem c9_failure_counter_always_zero_witness :
    ReachableSync (Fail 7 (Reset 5 sFinished0)) ∧
    (Fail 7 (Reset 5 sFinished0)).nCountFailures = 0 :=
  ⟨ReachableSync.fail_step 7 (Reset 5 sFinished0) (ReachableSync.init 5 sFinished0),
   c9_failure_counter_always_zero (Fail 7 (Reset 5 sFinished0))
     (ReachableSync.fail_step 7 (Reset 5 sFinished0)
       (ReachableSync.init 5 sFinished0))⟩

/-! ### C10: regtest finish bypasses the transition function -/

/-- The expected result of the regtest quick-mode branch at attemptCount 6 or
more: phase assigned Finished directly, attemptCount incremented, everything
else untouched. -/
def quickFinish (s : SyncState) (ful : FulfilledSet) : TickResult :=
  { state := { s with
      nRequestedZnodeAssets := ZNODE_SYNC_FINISHED
      nRequestedZnodeAttempt := s.nRequestedZnodeAttempt + 1 }
    fulfilled := ful
    msgs := []
    disconnected := []
    actions := []
    errored := false }

/-- A state in the PaymentVotes (MNW) phase with attemptCount 6. -/
def sMnw6 : SyncState :=
  { nRequestedZnodeAssets := ZNODE_SYNC_MNW, nRequestedZnodeAttempt := 6
    nTimeAssetSyncStarted := 7, nTimeLastZnodeList := 50, nTimeLastPaymentVote := 50
    nTimeLastGovernanceItem := 50, nTimeLastFailure := 0, nCountFailures := 0 }

/-- C10: in regtest quick mode, when attemptCount reaches 6 or more the
working tick assigns phase Finished directly in the per-peer branch, bypassing
SwitchToNextAsset: no finalization runs (no ManageState action, no full-sync
marking - the fulfilled tracker is unchanged), attemptCount is incremented
rather than reset, the phase start stamp (and every other timestamp) is
untouched, no message is sent, and the throw-on-Failed guard is never
consulted (the tick does not error). -/
theorem c10_regtest_finish_bypasses_switch (env : TickEnv) (now nTick : Int)
    (s : SyncState) (ful : FulfilledSet) (p : Peer) (rest : List Peer)
    (h1 : nTick % ZNODE_SYNC_TICK_SECONDS = 0) (h2 : env.haveBlockIndex = true)
    (h3 : env.regtest = true)
    (h4 : s.nRequestedZnodeAssets = ZNODE_SYNC_LIST ∨
      s.nRequestedZnodeAssets = ZNODE_SYNC_MNW)
    (h5 : s.nRequestedZnodeAttempt ≥ 6)
    (h6 : env.vNodes = p :: rest)
    (h7 : p.fZnode = false) (h8 : p.fInbound = false) :
    ProcessTick env now nTick s ful = quickFinish s ful ∧
    (ProcessTick env now nTick s ful).state.nTimeAssetSyncStarted =
      s.nTimeAssetSyncStarted ∧
    (ProcessTick env now nTick s ful).actions = [] ∧
    (ProcessTick env now nTick s ful).fulfilled = ful ∧
    (ProcessTick env now nTick s ful).errored = false := by
  have htick : ¬ nTick % ZNODE_SYNC_TICK_SECONDS ≠ 0 := by rw [h1]; simp
  have hbi : ¬ env.haveBlockIndex = false := by rw [h2]; simp
  have hne999 : ¬ s.nRequestedZnodeAssets = ZNODE_SYNC_FINISHED := by
    rcases h4 with h4 | h4 <;> (rw [h4]; decide)
  have hnef : ¬ s.nRequestedZnodeAssets = ZNODE_SYNC_FAILED := by
    rcases h4 with h4 | h4 <;> (rw [h4]; decide)
  have hc1 : ¬ (env.regtest = false ∧ env.blockchainSynced = false ∧
      s.nRequestedZnodeAssets > ZNODE_SYNC_SPORKS) := by
    rintro ⟨ha, -⟩
    rw [h3] at ha
    cases ha
  have hc2 : ¬ (s.nRequestedZnodeAssets = ZNODE_SYNC_INITIAL ∨
      (s.nRequestedZnodeAssets = ZNODE_SYNC_SPORKS ∧ env.blockchainSynced = true)) := by
    rintro (hx | ⟨hx, -⟩) <;> rcases h4 with h4 | h4 <;>
      (rw [h4] at hx; exact absurd hx (by decide))
  have hskip : ¬ (p.fZnode = true ∨ (env.fZNode = true ∧ p.fInbound = true)) := by
    simp [h7, h8]
  have ha2 : ¬ s.nRequestedZnodeAttempt ≤ 2 := by omega
  have ha4 : ¬ s.nRequestedZnodeAttempt < 4 := by omega
  have ha6 : ¬ s.nRequestedZnodeAttempt < 6 := by omega
  have hmain : ProcessTick env now nTick s ful = quickFinish s ful := by
    rw [ProcessTick, if_neg htick, if_neg hbi, if_neg hne999, if_neg hnef,
      ProcessTickMain, if_neg hc1, if_neg hc2, h6]
    simp only [processPeers]
    rw [if_neg hskip, if_pos h3, if_neg ha2, if_neg ha4, if_neg ha6]
    rfl
  refine ⟨hmain, ?_, ?_, ?_, ?_⟩ <;> (rw [hmain]; rfl)

/-- Witness for C10 at the concrete regtest scenario with attemptCount 6. -/
theorem c10_regtest_finish_bypasses_switch_witness :
    ProcessTick tickEnvRegtest 100 0 sMnw6 [] = quickFinish sMnw6 [] ∧
    (ProcessTick tickEnvRegtest 100 0 sMnw6 []).state.nTimeAssetSyncStarted =
      sMnw6.nTimeAssetSyncStarted ∧
    (ProcessTick tickEnvRegtest 100 0 sMnw6 []).actions = [] ∧
    (ProcessTick tickEnvRegtest 100 0 sMnw6 []).fulfilled = [] ∧
    (ProcessTick tickEnvRegtest 100 0 sMnw6 []).errored = false :=
  c10_regtest_finish_bypasses_switch tickEnvRegtest 100 0 sMnw6 [] peerA []
    (by decide) rfl rfl (Or.inr rfl) (by decide) rfl rfl rfl

end ZnodeSync
